import Mathlib

/-!
Shallow embedding of the VM disk-image builder (`distrobuilder/vm.go`).

The Go code is stateful and drives external host tools (`losetup`, `lsblk`,
`sgdisk`, `mkfs.*`, `mount`, `umount`, `blkid`) plus a few direct syscalls
(`Mknod`, `Remove`, `MkdirAll`, `Create`/`Chmod`/`Truncate`).  We embed it as
explicit state passing over the `vm` record, with the host modelled as an
oracle (`Host`) that decides the result of every external invocation, and an
explicit trace (`List Effect`) recording every external invocation the code
performs, in order.  Go panics (out-of-range slice indexing) are modelled by
the `Outcome.panics` result.
-/

/-- Result of a Go function call in the embedding: normal return value,
error return (the Go `error` message), or a runtime panic (out-of-range
slice indexing). -/
inductive Outcome (α : Type) where
  | ok (a : α) : Outcome α
  | err (msg : String) : Outcome α
  | panics : Outcome α
  deriving DecidableEq, Repr

/-- Embedding of Go `strings.Split` with a single-character separator,
on the character list: splitting the empty list gives one empty segment,
as in Go. -/
def splitChars (sep : Char) : List Char → List (List Char)
  | [] => [[]]
  | c :: cs =>
    match splitChars sep cs with
    | [] => [[c]]
    | r :: rs => if c = sep then [] :: r :: rs else (c :: r) :: rs

/-- Go `strings.Split s sep` for the single-character separators used by the
source (`"\n"` and `":"`). -/
def goSplit (s : String) (sep : Char) : List String :=
  (splitChars sep s.data).map String.mk

/-- Go `strings.TrimSpace`: strip leading and trailing whitespace. -/
def goTrimSpace (s : String) : String :=
  String.mk (((s.data.dropWhile Char.isWhitespace).reverse.dropWhile Char.isWhitespace).reverse)

/-- Numeric value of a digit list, most significant first. -/
def digitsVal (ds : List Char) : Nat :=
  ds.foldl (fun acc c => acc * 10 + (c.toNat - 48)) 0

/-- Embedding of Go `strconv.Atoi`: an optional sign followed by at least one
decimal digit parses; anything else is a syntax error.  (The `int` range
check on overflow is not modelled; no claim depends on it.) -/
def atoi (s : String) : Except String Int :=
  let parseDigits : List Char → Int → Except String Int := fun ds sign =>
    if ds ≠ [] ∧ ds.all (fun c => c.isDigit) then .ok (sign * (digitsVal ds : Int))
    else .error ("invalid syntax: " ++ s)
  match s.data with
  | '+' :: rest => parseDigits rest 1
  | '-' :: rest => parseDigits rest (-1)
  | cs => parseDigits cs 1

/-- External invocation performed by the builder, recorded in order in the
trace.  Each constructor records the attempt (the oracle decides success). -/
inductive Effect where
  | runOut (cmd : List String)
  | runCmd (cmd : List String)
  | mknodAt (path : String) (major minor : Int)
  | removeAt (path : String)
  | mkdirAt (path : String)
  | createAt (path : String)
  | chmodAt (path : String)
  | truncateAt (path : String) (size : Nat)
  | closeFile (path : String)
  deriving DecidableEq, Repr

/-- Host oracle: decides the result of every external invocation.
`runOut` models `lxd.RunCommand` (captures stdout, or fails);
`runCmd` success models `shared.RunCommand` (exit status only);
the remaining fields model `lxd.PathExists`, `unix.Mknod`, `os.Remove`,
`os.MkdirAll`, `os.Create`, `File.Chmod` and `File.Truncate`. -/
structure Host where
  runOut : List String → Except String String
  runOk : List String → Bool
  pathExists : String → Bool
  mknodOk : String → Bool
  removeOk : String → Bool
  mkdirOk : String → Bool
  createOk : String → Bool
  chmodOk : String → Bool
  truncateOk : String → Nat → Bool

/-- The `vm` struct of `distrobuilder/vm.go`.  `size` is a `uint64` in Go;
it is modelled as `Nat` (no arithmetic is performed on it). -/
structure vm where
  imageFile : String
  loopDevice : String
  rootFS : String
  rootfsDir : String
  size : Nat
  deriving DecidableEq, Repr

/-- Embedding of `newVM`: default the filesystem kind to `ext4`, reject
unsupported kinds, default the size to 4294967296 bytes.  `newVM` performs
no external invocation (no file is created). -/
def newVM (imageFile rootfsDir fs : String) (size : Nat) : Except String vm :=
  let fs := if fs = "" then "ext4" else fs
  if ¬ (fs = "btrfs" ∨ fs = "ext4") then
    .error ("Unsupported fs: " ++ fs)
  else
    let size := if size = 0 then 4294967296 else size
    .ok { imageFile := imageFile, loopDevice := "", rootFS := fs, rootfsDir := rootfsDir, size := size }

/-- Embedding of `vm.getLoopDev`. -/
def vm.getLoopDev (v : vm) : String :=
  v.loopDevice

/-- Embedding of `vm.getRootfsDevFile`: loop device path suffixed `p2`, or
empty when unattached. -/
def vm.getRootfsDevFile (v : vm) : String :=
  if v.loopDevice = "" then "" else v.loopDevice ++ "p2"

/-- Embedding of `vm.getUEFIDevFile`: loop device path suffixed `p1`, or
empty when unattached. -/
def vm.getUEFIDevFile (v : vm) : String :=
  if v.loopDevice = "" then "" else v.loopDevice ++ "p1"

/-- Argument list of the `losetup -P -f --show <image>` invocation. -/
def losetupArgs (image : String) : List String :=
  ["losetup", "-P", "-f", "--show", image]

/-- Argument list of the `lsblk --raw --output MAJ:MIN --noheadings <dev>`
invocation. -/
def lsblkArgs (dev : String) : List String :=
  ["lsblk", "--raw", "--output", "MAJ:MIN", "--noheadings", dev]

/-- Embedding of `vm.createEmptyDiskImage`: `os.Create`, `defer f.Close()`,
`f.Chmod(0600)`, `f.Truncate(size)`.  The deferred `Close` runs on every
path after `Create` succeeded. -/
def vm.createEmptyDiskImage (host : Host) (v : vm) : Outcome Unit × vm × List Effect :=
  if ¬ host.createOk v.imageFile then
    (.err ("Failed to open " ++ v.imageFile), v, [Effect.createAt v.imageFile])
  else if ¬ host.chmodOk v.imageFile then
    (.err ("Failed to chmod " ++ v.imageFile), v,
      [Effect.createAt v.imageFile, Effect.chmodAt v.imageFile, Effect.closeFile v.imageFile])
  else if ¬ host.truncateOk v.imageFile v.size then
    (.err ("Failed to create sparse file " ++ v.imageFile), v,
      [Effect.createAt v.imageFile, Effect.chmodAt v.imageFile,
        Effect.truncateAt v.imageFile v.size, Effect.closeFile v.imageFile])
  else
    (.ok (), v,
      [Effect.createAt v.imageFile, Effect.chmodAt v.imageFile,
        Effect.truncateAt v.imageFile v.size, Effect.closeFile v.imageFile])

/-- Embedding of `vm.createPartitions`: three `sgdisk` invocations against
the image file (`--zap-all`, ESP partition, rootfs partition), stopping at
the first failure. -/
def vm.createPartitions (host : Host) (v : vm) : Outcome Unit × vm × List Effect :=
  let c1 := ["sgdisk", v.imageFile, "--zap-all"]
  let c2 := ["sgdisk", v.imageFile, "--new=1::+100M", "-t 1:EF00"]
  let c3 := ["sgdisk", v.imageFile, "--new=2::", "-t 2:8300"]
  if ¬ host.runOk c1 then
    (.err "Failed to create partitions", v, [Effect.runCmd c1])
  else if ¬ host.runOk c2 then
    (.err "Failed to create partitions", v, [Effect.runCmd c1, Effect.runCmd c2])
  else if ¬ host.runOk c3 then
    (.err "Failed to create partitions", v, [Effect.runCmd c1, Effect.runCmd c2, Effect.runCmd c3])
  else
    (.ok (), v, [Effect.runCmd c1, Effect.runCmd c2, Effect.runCmd c3])

/-- Embedding of one device-node reconciliation block of `vm.mountImage`
(the source has two identical blocks, for indices 1 and 2): if the device
file is missing, index `deviceNumbers[idx]` (panicking when out of range, as
Go slice indexing does), split it on `":"`, `Atoi` both fields (indexing
`fields[1]` panics when the line has no `":"`), and `Mknod` the block
device file with mode `S_IFBLK | 0644`. -/
def ensureNode (host : Host) (deviceNumbers : List String) (idx : Nat) (devFile : String) :
    Outcome Unit × List Effect :=
  if host.pathExists devFile then (.ok (), [])
  else
    match deviceNumbers.get? idx with
    | none => (.panics, [])
    | some line =>
      let fields := goSplit line ':'
      match fields.get? 0 with
      | none => (.panics, [])
      | some f0 =>
        match atoi f0 with
        | .error _ => (.err ("Failed to parse " ++ f0), [])
        | .ok major =>
          match fields.get? 1 with
          | none => (.panics, [])
          | some f1 =>
            match atoi f1 with
            | .error _ => (.err ("Failed to parse " ++ f1), [])
            | .ok minor =>
              if host.mknodOk devFile then
                (.ok (), [Effect.mknodAt devFile major minor])
              else
                (.err ("Failed to create block device " ++ devFile),
                  [Effect.mknodAt devFile major minor])

/-- Embedding of `vm.mountImage`: no-op when a loop device is already
recorded, otherwise `losetup -P -f --show`, record the trimmed device path,
`lsblk` the partition device numbers, and reconcile the two partition device
nodes (ESP first, then rootfs). -/
def vm.mountImage (host : Host) (v : vm) : Outcome Unit × vm × List Effect :=
  if v.loopDevice ≠ "" then (.ok (), v, [])
  else
    match host.runOut (losetupArgs v.imageFile) with
    | .error e =>
      (.err ("Failed to setup loop device: " ++ e), v, [Effect.runOut (losetupArgs v.imageFile)])
    | .ok stdout =>
      let v1 : vm := { v with loopDevice := goTrimSpace stdout }
      match host.runOut (lsblkArgs v1.loopDevice) with
      | .error e =>
        (.err ("Failed to list block devices: " ++ e), v1,
          [Effect.runOut (losetupArgs v.imageFile), Effect.runOut (lsblkArgs v1.loopDevice)])
      | .ok out =>
        let deviceNumbers := goSplit out '\n'
        let r1 := ensureNode host deviceNumbers 1 v1.getUEFIDevFile
        let base := [Effect.runOut (losetupArgs v.imageFile), Effect.runOut (lsblkArgs v1.loopDevice)] ++ r1.2
        match r1.1 with
        | .ok _ =>
          let r2 := ensureNode host deviceNumbers 2 v1.getRootfsDevFile
          (r2.1, v1, base ++ r2.2)
        | other => (other, v1, base)

/-- Embedding of `vm.umountImage`: no-op when no loop device is recorded or
its path no longer exists; otherwise `losetup -d`, remove the two partition
device files if present, and clear the recorded path only after everything
succeeded. -/
def vm.umountImage (host : Host) (v : vm) : Outcome Unit × vm × List Effect :=
  if v.loopDevice = "" ∨ ¬ host.pathExists v.loopDevice then (.ok (), v, [])
  else
    let detachCmd := ["losetup", "-d", v.loopDevice]
    if ¬ host.runOk detachCmd then
      (.err "Failed to detach loop device", v, [Effect.runCmd detachCmd])
    else
      let r1 : Outcome Unit × List Effect :=
        if host.pathExists v.getUEFIDevFile then
          if host.removeOk v.getUEFIDevFile then (.ok (), [Effect.removeAt v.getUEFIDevFile])
          else (.err ("Failed to remove file " ++ v.getUEFIDevFile), [Effect.removeAt v.getUEFIDevFile])
        else (.ok (), [])
      match r1.1 with
      | .ok _ =>
        let r2 : Outcome Unit × List Effect :=
          if host.pathExists v.getRootfsDevFile then
            if host.removeOk v.getRootfsDevFile then (.ok (), [Effect.removeAt v.getRootfsDevFile])
            else (.err ("Failed to remove file " ++ v.getRootfsDevFile), [Effect.removeAt v.getRootfsDevFile])
          else (.ok (), [])
        match r2.1 with
        | .ok _ =>
          (.ok (), { v with loopDevice := "" }, Effect.runCmd detachCmd :: (r1.2 ++ r2.2))
        | e2 => (e2, v, Effect.runCmd detachCmd :: (r1.2 ++ r2.2))
      | e1 => (e1, v, Effect.runCmd detachCmd :: r1.2)

/-- Embedding of `vm.createRootFS`: guarded by the attach check; for btrfs,
`mkfs.btrfs`, a temporary `mount` of the rootfs partition at the build root,
`btrfs subvolume create <dir>/@`, with `defer umount <dir>` issued on every
exit path after the mount succeeded (its own failure is ignored, as the Go
`defer` discards the error); for ext4, a single `mkfs.ext4` invocation. -/
def vm.createRootFS (host : Host) (v : vm) : Outcome Unit × vm × List Effect :=
  if v.loopDevice = "" then (.err "Disk image not mounted", v, [])
  else if v.rootFS = "btrfs" then
    let mkfsCmd := ["mkfs.btrfs", "-f", "-L", "rootfs", v.getRootfsDevFile]
    if ¬ host.runOk mkfsCmd then
      (.err "Failed to create btrfs filesystem", v, [Effect.runCmd mkfsCmd])
    else
      let mountCmd := ["mount", v.getRootfsDevFile, v.rootfsDir]
      if ¬ host.runOk mountCmd then
        (.err ("Failed to mount " ++ v.getRootfsDevFile ++ " at " ++ v.rootfsDir), v,
          [Effect.runCmd mkfsCmd, Effect.runCmd mountCmd])
      else
        let subvolCmd := ["btrfs", "subvolume", "create", v.rootfsDir ++ "/@"]
        let umountCmd := ["umount", v.rootfsDir]
        ((if host.runOk subvolCmd then .ok () else .err "Failed to create subvolume"), v,
          [Effect.runCmd mkfsCmd, Effect.runCmd mountCmd, Effect.runCmd subvolCmd,
            Effect.runCmd umountCmd])
  else if v.rootFS = "ext4" then
    let mkfsCmd := ["mkfs.ext4", "-F", "-b", "4096", "-i 8192", "-m", "0", "-L", "rootfs",
      "-E", "resize=536870912", v.getRootfsDevFile]
    ((if host.runOk mkfsCmd then .ok () else .err "Failed to create ext4 filesystem"), v,
      [Effect.runCmd mkfsCmd])
  else (.ok (), v, [])

/-- Embedding of `vm.createUEFIFS`: guarded by the attach check, then a
single `mkfs.vfat` invocation on the ESP device file. -/
def vm.createUEFIFS (host : Host) (v : vm) : Outcome Unit × vm × List Effect :=
  if v.loopDevice = "" then (.err "Disk image not mounted", v, [])
  else
    let c := ["mkfs.vfat", "-F", "32", "-n", "UEFI", v.getUEFIDevFile]
    ((if host.runOk c then .ok () else .err "Failed to create vfat filesystem"), v, [Effect.runCmd c])

/-- Embedding of `vm.getRootfsPartitionUUID`: guarded by the attach check,
then `blkid -s PARTUUID -o value` on the rootfs device file, trimming the
output. -/
def vm.getRootfsPartitionUUID (host : Host) (v : vm) : Outcome String × vm × List Effect :=
  if v.loopDevice = "" then (.err "Disk image not mounted", v, [])
  else
    let c := ["blkid", "-s", "PARTUUID", "-o", "value", v.getRootfsDevFile]
    match host.runOut c with
    | .error e => (.err e, v, [Effect.runOut c])
    | .ok stdout => (.ok (goTrimSpace stdout), v, [Effect.runOut c])

/-- Embedding of `vm.getUEFIPartitionUUID`: guarded by the attach check,
then `blkid -s PARTUUID -o value` on the ESP device file, trimming the
output. -/
def vm.getUEFIPartitionUUID (host : Host) (v : vm) : Outcome String × vm × List Effect :=
  if v.loopDevice = "" then (.err "Disk image not mounted", v, [])
  else
    let c := ["blkid", "-s", "PARTUUID", "-o", "value", v.getUEFIDevFile]
    match host.runOut c with
    | .error e => (.err e, v, [Effect.runOut c])
    | .ok stdout => (.ok (goTrimSpace stdout), v, [Effect.runOut c])

/-- Embedding of `vm.mountRootPartition`: guarded by the attach check; for
btrfs, mount selecting subvolume `/@`; for ext4, a plain mount. -/
def vm.mountRootPartition (host : Host) (v : vm) : Outcome Unit × vm × List Effect :=
  if v.loopDevice = "" then (.err "Disk image not mounted", v, [])
  else if v.rootFS = "btrfs" then
    let c := ["mount", v.getRootfsDevFile, v.rootfsDir, "-o", "defaults,subvol=/@"]
    ((if host.runOk c then .ok () else .err "Failed to mount root partition"), v, [Effect.runCmd c])
  else if v.rootFS = "ext4" then
    let c := ["mount", v.getRootfsDevFile, v.rootfsDir]
    ((if host.runOk c then .ok () else .err "Failed to mount root partition"), v, [Effect.runCmd c])
  else (.ok (), v, [])

/-- Embedding of `vm.mountUEFIPartition`: guarded by the attach check;
`MkdirAll` the nested `boot/efi` mount point (`filepath.Join` modelled as
slash concatenation), then mount the ESP device file there. -/
def vm.mountUEFIPartition (host : Host) (v : vm) : Outcome Unit × vm × List Effect :=
  if v.loopDevice = "" then (.err "Disk image not mounted", v, [])
  else
    let mountpoint := v.rootfsDir ++ "/boot/efi"
    if ¬ host.mkdirOk mountpoint then
      (.err ("Failed to create directory " ++ mountpoint), v, [Effect.mkdirAt mountpoint])
    else
      let c := ["mount", v.getUEFIDevFile, mountpoint]
      ((if host.runOk c then .ok () else .err "Failed to mount UEFI partition"), v,
        [Effect.mkdirAt mountpoint, Effect.runCmd c])

/-- An lsblk query output is well formed when its newline-split has entries
at indices 1 and 2 (three lines) and each of those lines, split on `":"`,
has a second field — exactly the shape the reconciliation code indexes. -/
def lsblkWellFormed (out : String) : Bool :=
  let lines := goSplit out '\n'
  match lines.get? 1, lines.get? 2 with
  | some l1, some l2 =>
    match (goSplit l1 ':').get? 1, (goSplit l2 ':').get? 1 with
    | some _, some _ => true
    | _, _ => false
  | _, _ => false

/-- Host on which every external invocation succeeds: `losetup` assigns
`/dev/loop7`, `lsblk` reports three well-formed `MAJ:MIN` lines, every
path exists, and every command and syscall succeeds. -/
def happyHost : Host where
  runOut := fun c =>
    match c.head? with
    | some "losetup" => .ok "/dev/loop7\n"
    | some "lsblk" => .ok "7:0\n259:1\n259:2\n"
    | some "blkid" => .ok "2f24a87e-01\n"
    | _ => .error "unexpected command"
  runOk := fun _ => true
  pathExists := fun _ => true
  mknodOk := fun _ => true
  removeOk := fun _ => true
  mkdirOk := fun _ => true
  createOk := fun _ => true
  chmodOk := fun _ => true
  truncateOk := fun _ _ => true

/-- Host whose `lsblk` reports a single line with no trailing newline;
everything else succeeds and no partition device node exists, so
device-node reconciliation must index past the end of the split output. -/
def shortLsblkHost : Host where
  runOut := fun c =>
    match c.head? with
    | some "losetup" => .ok "/dev/loop9\n"
    | some "lsblk" => .ok "259:0"
    | _ => .error "unexpected command"
  runOk := fun _ => true
  pathExists := fun _ => false
  mknodOk := fun _ => true
  removeOk := fun _ => true
  mkdirOk := fun _ => true
  createOk := fun _ => true
  chmodOk := fun _ => true
  truncateOk := fun _ _ => true

/-- Host on which `losetup` succeeds (assigning `/dev/loop7`) but every
following output-capturing command, `lsblk` included, fails. -/
def lsblkFailHost : Host where
  runOut := fun c =>
    match c.head? with
    | some "losetup" => .ok "/dev/loop7\n"
    | _ => .error "device error"
  runOk := fun _ => true
  pathExists := fun _ => false
  mknodOk := fun _ => true
  removeOk := fun _ => true
  mkdirOk := fun _ => true
  createOk := fun _ => true
  chmodOk := fun _ => true
  truncateOk := fun _ _ => true

/-- Host on which `losetup` itself fails (no loop device available). -/
def losetupFailHost : Host where
  runOut := fun _ => .error "no loop device"
  runOk := fun _ => true
  pathExists := fun _ => false
  mknodOk := fun _ => true
  removeOk := fun _ => true
  mkdirOk := fun _ => true
  createOk := fun _ => true
  chmodOk := fun _ => true
  truncateOk := fun _ _ => true

/-- A vm attached to `/dev/loop7`, building a btrfs root. -/
def vmAttached : vm :=
  { imageFile := "/tmp/image.raw", loopDevice := "/dev/loop7", rootFS := "btrfs",
    rootfsDir := "/tmp/rootfs", size := 4294967296 }

/-- A detached vm (no loop device recorded), building an ext4 root. -/
def vmDetached : vm :=
  { imageFile := "/tmp/image.raw", loopDevice := "", rootFS := "ext4",
    rootfsDir := "/tmp/rootfs", size := 4294967296 }

/-- The ext4-rooted vm that `newVM` returns for empty kind and zero size. -/
def vm0 : vm :=
  { imageFile := "/tmp/image.raw", loopDevice := "", rootFS := "ext4",
    rootfsDir := "/tmp/rootfs", size := 4294967296 }

example : (vm.mountImage happyHost vmDetached).1 = Outcome.ok () := by rfl
example : ((vm.mountImage happyHost vmDetached).2.1).loopDevice = "/dev/loop7" := by rfl
example : (vm.mountImage shortLsblkHost vmDetached).1 = Outcome.panics := by rfl
example : (vm.umountImage happyHost vmAttached).2.1 = { vmAttached with loopDevice := "" } := by rfl
example : lsblkWellFormed "7:0\n259:1\n259:2\n" = true := by rfl
example : lsblkWellFormed "259:0" = false := by rfl

example : goSplit "a\nb\n" '\n' = ["a", "b", ""] := by decide
example : goSplit "" '\n' = [""] := by decide
example : goSplit "7:1" ':' = ["7", "1"] := by decide
example : goSplit "71" ':' = ["71"] := by decide
example : goTrimSpace " /dev/loop3\n" = "/dev/loop3" := by decide
example : atoi "259" = .ok 259 := by rfl
example : atoi "-3" = .ok (-3) := by rfl
example : atoi "2a" = .error "invalid syntax: 2a" := by rfl
example : atoi "" = .error "invalid syntax: " := by rfl

/-- Claim C1: while attached (non-empty recorded loop device path),
`mountImage` returns success immediately with the vm unchanged and an empty
effect trace (no loop device bound, no device node created); hence a second
call in a row without an intervening `umountImage` is equally a no-op. -/
theorem mountImage_idempotent_when_attached (host : Host) (v : vm)
    (h : v.loopDevice ≠ "") :
    vm.mountImage host v = (Outcome.ok (), v, []) ∧
    vm.mountImage host (vm.mountImage host v).2.1 = (Outcome.ok (), v, []) := by
  have h1 : vm.mountImage host v = (Outcome.ok (), v, []) := by
    simp [vm.mountImage, h]
  exact ⟨h1, by rw [h1]; exact h1⟩

/-- Witness for C1: on the all-succeeding host, the attached vm makes
`mountImage` a no-op, twice in a row. -/
theorem mountImage_idempotent_when_attached_witness :
    vm.mountImage happyHost vmAttached = (Outcome.ok (), vmAttached, []) ∧
    vm.mountImage happyHost (vm.mountImage happyHost vmAttached).2.1 =
      (Outcome.ok (), vmAttached, []) :=
  mountImage_idempotent_when_attached happyHost vmAttached (by decide)

/-- Claim C2: with no loop device recorded (i.e. before `mountImage` has
succeeded), `createRootFS`, `createUEFIFS`, `mountRootPartition`,
`mountUEFIPartition` and both PARTUUID lookups all fail with the
`Disk image not mounted` error, leave the vm unchanged, and perform no
external action. -/
theorem notMounted_guards (host : Host) (v : vm) (h : v.loopDevice = "") :
    vm.createRootFS host v = (Outcome.err "Disk image not mounted", v, []) ∧
    vm.createUEFIFS host v = (Outcome.err "Disk image not mounted", v, []) ∧
    vm.mountRootPartition host v = (Outcome.err "Disk image not mounted", v, []) ∧
    vm.mountUEFIPartition host v = (Outcome.err "Disk image not mounted", v, []) ∧
    vm.getRootfsPartitionUUID host v = (Outcome.err "Disk image not mounted", v, []) ∧
    vm.getUEFIPartitionUUID host v = (Outcome.err "Disk image not mounted", v, []) := by
  refine ⟨?_, ?_, ?_, ?_, ?_, ?_⟩ <;>
    simp [vm.createRootFS, vm.createUEFIFS, vm.mountRootPartition, vm.mountUEFIPartition,
      vm.getRootfsPartitionUUID, vm.getUEFIPartitionUUID, h]

/-- Witness for C2: the detached vm is rejected by all six operations on
the all-succeeding host. -/
theorem notMounted_guards_witness :
    vm.createRootFS happyHost vmDetached = (Outcome.err "Disk image not mounted", vmDetached, []) ∧
    vm.createUEFIFS happyHost vmDetached = (Outcome.err "Disk image not mounted", vmDetached, []) ∧
    vm.mountRootPartition happyHost vmDetached = (Outcome.err "Disk image not mounted", vmDetached, []) ∧
    vm.mountUEFIPartition happyHost vmDetached = (Outcome.err "Disk image not mounted", vmDetached, []) ∧
    vm.getRootfsPartitionUUID happyHost vmDetached = (Outcome.err "Disk image not mounted", vmDetached, []) ∧
    vm.getUEFIPartitionUUID happyHost vmDetached = (Outcome.err "Disk image not mounted", vmDetached, []) :=
  notMounted_guards happyHost vmDetached (by decide)

/-- Claim C6: with an empty recorded loop device path, or a recorded path
that no longer exists on the host, `umountImage` returns success with the
vm unchanged and an empty effect trace (no unbind, no file removal). -/
theorem umountImage_noop_when_detached (host : Host) (v : vm)
    (h : v.loopDevice = "" ∨ host.pathExists v.loopDevice = false) :
    vm.umountImage host v = (Outcome.ok (), v, []) := by
  unfold vm.umountImage
  rcases h with h | h <;> simp [h]

/-- Witness for C6: detaching the never-attached vm is a no-op. -/
theorem umountImage_noop_when_detached_witness :
    vm.umountImage happyHost vmDetached = (Outcome.ok (), vmDetached, []) :=
  umountImage_noop_when_detached happyHost vmDetached (Or.inl rfl)

/-- Claim C8: when a loop device is recorded, `getRootfsDevFile` is the
loop device path with suffix `p2` and `getUEFIDevFile` the same path with
suffix `p1`; when none is recorded, both are the empty string. -/
theorem devFile_suffix_swap (v : vm) :
    (v.loopDevice ≠ "" →
      v.getRootfsDevFile = v.loopDevice ++ "p2" ∧ v.getUEFIDevFile = v.loopDevice ++ "p1") ∧
    (v.loopDevice = "" → v.getRootfsDevFile = "" ∧ v.getUEFIDevFile = "") := by
  constructor <;> intro h <;> simp [vm.getRootfsDevFile, vm.getUEFIDevFile, h]

/-- Witness for C8: the attached vm derives `/dev/loop7p2` and
`/dev/loop7p1`. -/
theorem devFile_suffix_swap_witness :
    vmAttached.getRootfsDevFile = "/dev/loop7" ++ "p2" ∧
    vmAttached.getUEFIDevFile = "/dev/loop7" ++ "p1" :=
  (devFile_suffix_swap vmAttached).1 (by decide)

/-- Claim C9: `newVM` defaults an omitted (empty) filesystem kind to `ext4`
and an omitted (zero) size to 4294967296 bytes, rejects any other kind than
`ext4` and `btrfs` with the unsupported-filesystem error (performing no
external action — the embedding of `newVM` is pure, so no file is created),
and otherwise returns a vm holding exactly the given path, directory, kind
and size, with no loop device recorded. -/
theorem newVM_defaults (imageFile rootfsDir fs : String) (size : Nat) :
    (fs ≠ "" → fs ≠ "btrfs" → fs ≠ "ext4" →
      newVM imageFile rootfsDir fs size = Except.error ("Unsupported fs: " ++ fs)) ∧
    (∀ v, newVM imageFile rootfsDir fs size = Except.ok v →
      v.imageFile = imageFile ∧ v.rootfsDir = rootfsDir ∧ v.loopDevice = "" ∧
      v.rootFS = (if fs = "" then "ext4" else fs) ∧
      v.size = (if size = 0 then 4294967296 else size)) := by
  constructor
  · intro h1 h2 h3
    simp [newVM, h1, h2, h3]
  · intro v hv
    simp only [newVM] at hv
    split at hv <;> split at hv <;>
      first
        | (injection hv with h; subst h; simp_all)
        | exact Except.noConfusion hv

/-- Witness for C9: kind `xfs` is rejected, and empty kind with zero size
yields the ext4 vm of default size. -/
theorem newVM_defaults_witness :
    newVM "/tmp/image.raw" "/tmp/rootfs" "xfs" 0 = Except.error ("Unsupported fs: " ++ "xfs") ∧
    (vm0.imageFile = "/tmp/image.raw" ∧ vm0.rootfsDir = "/tmp/rootfs" ∧ vm0.loopDevice = "" ∧
      vm0.rootFS = (if "" = "" then "ext4" else "") ∧
      vm0.size = (if 0 = 0 then 4294967296 else 0)) :=
  ⟨(newVM_defaults "/tmp/image.raw" "/tmp/rootfs" "xfs" 0).1 (by decide) (by decide) (by decide),
    (newVM_defaults "/tmp/image.raw" "/tmp/rootfs" "" 0).2 vm0 (by rfl)⟩

/-- Claim C3: for an attached btrfs vm, `createRootFS` runs `mkfs.btrfs`,
temporarily mounts the rootfs partition at the build root, creates subvolume
`@`, and — once the temporary mount succeeded — issues the `umount` of the
build root on every exit path, whether subvolume creation succeeds or fails
(the deferred `umount` is the last effect of the trace), so `createRootFS`
never returns with the temporary rootfs mount left in place. -/
theorem createRootFS_btrfs_unmounts (host : Host) (v : vm)
    (hatt : v.loopDevice ≠ "") (hfs : v.rootFS = "btrfs") :
    (host.runOk ["mkfs.btrfs", "-f", "-L", "rootfs", v.getRootfsDevFile] = true →
      host.runOk ["mount", v.getRootfsDevFile, v.rootfsDir] = true →
      (vm.createRootFS host v).2.2 =
        [Effect.runCmd ["mkfs.btrfs", "-f", "-L", "rootfs", v.getRootfsDevFile],
          Effect.runCmd ["mount", v.getRootfsDevFile, v.rootfsDir],
          Effect.runCmd ["btrfs", "subvolume", "create", v.rootfsDir ++ "/@"],
          Effect.runCmd ["umount", v.rootfsDir]] ∧
      ((vm.createRootFS host v).1 = Outcome.ok () ↔
        host.runOk ["btrfs", "subvolume", "create", v.rootfsDir ++ "/@"] = true)) ∧
    (Effect.runCmd ["mount", v.getRootfsDevFile, v.rootfsDir] ∈ (vm.createRootFS host v).2.2 →
      host.runOk ["mount", v.getRootfsDevFile, v.rootfsDir] = true →
      Effect.runCmd ["umount", v.rootfsDir] ∈ (vm.createRootFS host v).2.2) := by
  by_cases hmk : host.runOk ["mkfs.btrfs", "-f", "-L", "rootfs", v.getRootfsDevFile] = true
  · by_cases hmo : host.runOk ["mount", v.getRootfsDevFile, v.rootfsDir] = true
    · constructor
      · intro _ _
        constructor
        · simp [vm.createRootFS, hatt, hfs, hmk, hmo]
        · by_cases hs : host.runOk ["btrfs", "subvolume", "create", v.rootfsDir ++ "/@"] = true <;>
            simp [vm.createRootFS, hatt, hfs, hmk, hmo, hs]
      · intro _ _
        simp [vm.createRootFS, hatt, hfs, hmk, hmo]
    · refine ⟨fun _ h2 => absurd h2 hmo, fun _ h2 => absurd h2 hmo⟩
  · refine ⟨fun h1 _ => absurd h1 hmk, fun hmem _ => ?_⟩
    exact absurd hmem (by simp [vm.createRootFS, hatt, hfs, hmk])

/-- Witness for C3: on the all-succeeding host, the attached btrfs vm
produces the four-command trace ending in the `umount`, and succeeds. -/
theorem createRootFS_btrfs_unmounts_witness :
    (vm.createRootFS happyHost vmAttached).2.2 =
      [Effect.runCmd ["mkfs.btrfs", "-f", "-L", "rootfs", vmAttached.getRootfsDevFile],
        Effect.runCmd ["mount", vmAttached.getRootfsDevFile, vmAttached.rootfsDir],
        Effect.runCmd ["btrfs", "subvolume", "create", vmAttached.rootfsDir ++ "/@"],
        Effect.runCmd ["umount", vmAttached.rootfsDir]] ∧
    ((vm.createRootFS happyHost vmAttached).1 = Outcome.ok () ↔
      happyHost.runOk ["btrfs", "subvolume", "create", vmAttached.rootfsDir ++ "/@"] = true) :=
  (createRootFS_btrfs_unmounts happyHost vmAttached (by decide) (by decide)).1 rfl rfl

/-- Claim C7: for an attached vm, if `umountImage` fails (loop-device
unbind, or removal of either partition device file) the recorded loop
device path is left unchanged, enabling a retry; and the recorded path is
cleared only when the whole sequence succeeded — unbind, plus removal of
each partition device file that existed. -/
theorem umountImage_failure_keeps_loopDevice (host : Host) (v : vm)
    (hatt : v.loopDevice ≠ "") :
    ((∃ e, (vm.umountImage host v).1 = Outcome.err e) → (vm.umountImage host v).2.1 = v) ∧
    (((vm.umountImage host v).2.1).loopDevice = "" →
      (vm.umountImage host v).1 = Outcome.ok () ∧
      host.runOk ["losetup", "-d", v.loopDevice] = true ∧
      (host.pathExists v.getUEFIDevFile = true → host.removeOk v.getUEFIDevFile = true) ∧
      (host.pathExists v.getRootfsDevFile = true → host.removeOk v.getRootfsDevFile = true)) := by
  by_cases hex : host.pathExists v.loopDevice = true
  · by_cases hdet : host.runOk ["losetup", "-d", v.loopDevice] = true
    · by_cases hp1 : host.pathExists v.getUEFIDevFile = true
      · by_cases hr1 : host.removeOk v.getUEFIDevFile = true
        · by_cases hp2 : host.pathExists v.getRootfsDevFile = true
          · by_cases hr2 : host.removeOk v.getRootfsDevFile = true <;>
              simp_all [vm.umountImage, hatt, hex, hdet, hp1, hr1, hp2]
          · simp_all [vm.umountImage, hatt, hex, hdet, hp1, hr1, hp2]
        · simp_all [vm.umountImage, hatt, hex, hdet, hp1, hr1]
      · by_cases hp2 : host.pathExists v.getRootfsDevFile = true
        · by_cases hr2 : host.removeOk v.getRootfsDevFile = true <;>
            simp_all [vm.umountImage, hatt, hex, hdet, hp1, hp2]
        · simp_all [vm.umountImage, hatt, hex, hdet, hp1, hp2]
    · simp_all [vm.umountImage, hatt, hex, hdet]
  · simp_all [vm.umountImage, hatt, hex]

/-- Witness for C7: on the all-succeeding host the attached vm detaches,
the error case being vacuous, and the cleared path entails that unbind and
both removals succeeded. -/
theorem umountImage_failure_keeps_loopDevice_witness :
    (vm.umountImage happyHost vmAttached).1 = Outcome.ok () ∧
    happyHost.runOk ["losetup", "-d", vmAttached.loopDevice] = true ∧
    (happyHost.pathExists vmAttached.getUEFIDevFile = true →
      happyHost.removeOk vmAttached.getUEFIDevFile = true) ∧
    (happyHost.pathExists vmAttached.getRootfsDevFile = true →
      happyHost.removeOk vmAttached.getRootfsDevFile = true) :=
  (umountImage_failure_keeps_loopDevice happyHost vmAttached (by decide)).2 (by rfl)

/-- Configuration fields of the vm other than the loop device path. -/
def sameConfig (a b : vm) : Prop :=
  b.imageFile = a.imageFile ∧ b.rootfsDir = a.rootfsDir ∧ b.rootFS = a.rootFS ∧ b.size = a.size

/-- Claim C10: every vm returned by `newVM` has kind `btrfs` or `ext4` and a
positive size, and every operation leaves `imageFile`, `rootfsDir`, `rootFS`
and `size` unchanged; only `loopDevice` is ever mutated, and only by
`mountImage` and `umountImage` (every other operation returns the vm
exactly as given). -/
theorem vm_config_immutable (host : Host) (imageFile rootfsDir fs : String) (size : Nat) (v : vm) :
    (∀ u, newVM imageFile rootfsDir fs size = Except.ok u →
      (u.rootFS = "btrfs" ∨ u.rootFS = "ext4") ∧ 0 < u.size) ∧
    sameConfig v (vm.mountImage host v).2.1 ∧
    sameConfig v (vm.umountImage host v).2.1 ∧
    (vm.createEmptyDiskImage host v).2.1 = v ∧
    (vm.createPartitions host v).2.1 = v ∧
    (vm.createRootFS host v).2.1 = v ∧
    (vm.createUEFIFS host v).2.1 = v ∧
    (vm.mountRootPartition host v).2.1 = v ∧
    (vm.mountUEFIPartition host v).2.1 = v ∧
    (vm.getRootfsPartitionUUID host v).2.1 = v ∧
    (vm.getUEFIPartitionUUID host v).2.1 = v := by
  refine ⟨?_, ?_, ?_, ?_, ?_, ?_, ?_, ?_, ?_, ?_, ?_⟩
  · intro u hu
    simp only [newVM] at hu
    split at hu <;> split at hu <;>
      first
        | (injection hu with h; subst h;
            exact ⟨by tauto, by dsimp only; split <;> omega⟩)
        | exact Except.noConfusion hu
  · simp only [vm.mountImage]
    repeat' split
    all_goals simp [sameConfig]
  · simp only [vm.umountImage]
    repeat' split
    all_goals simp [sameConfig]
  · simp only [vm.createEmptyDiskImage]
    repeat' split
    all_goals rfl
  · simp only [vm.createPartitions]
    repeat' split
    all_goals rfl
  · simp only [vm.createRootFS]
    repeat' split
    all_goals rfl
  · simp only [vm.createUEFIFS]
    repeat' split
    all_goals rfl
  · simp only [vm.mountRootPartition]
    repeat' split
    all_goals rfl
  · simp only [vm.mountUEFIPartition]
    repeat' split
    all_goals rfl
  · simp only [vm.getRootfsPartitionUUID]
    repeat' split
    all_goals rfl
  · simp only [vm.getUEFIPartitionUUID]
    repeat' split
    all_goals rfl

/-- Witness for C10: `newVM` with empty kind and zero size yields the
default ext4 vm, whose kind is supported and size positive; `umountImage`
preserves the attached vm's configuration fields. -/
theorem vm_config_immutable_witness :
    ((vm0.rootFS = "btrfs" ∨ vm0.rootFS = "ext4") ∧ 0 < vm0.size) ∧
    sameConfig vmAttached (vm.umountImage happyHost vmAttached).2.1 :=
  ⟨(vm_config_immutable happyHost "/tmp/image.raw" "/tmp/rootfs" "" 0 vmAttached).1 vm0 (by rfl),
    (vm_config_immutable happyHost "/tmp/image.raw" "/tmp/rootfs" "" 0 vmAttached).2.2.1⟩

/-- Splitting a character list never yields the empty list of segments. -/
theorem splitChars_ne_nil (sep : Char) (cs : List Char) : splitChars sep cs ≠ [] := by
  cases cs with
  | nil => simp [splitChars]
  | cons c cs =>
    simp only [splitChars]
    split
    · simp
    · split <;> simp

/-- Go string splitting never yields the empty list of segments. -/
theorem goSplit_ne_nil (s : String) (sep : Char) : goSplit s sep ≠ [] := by
  simp [goSplit, splitChars_ne_nil]

/-- Device-node reconciliation cannot panic when the indexed line exists
and has a second `":"`-separated field. -/
theorem ensureNode_ne_panics (host : Host) (lines : List String) (idx : Nat) (dev : String)
    (l : String) (hline : lines.get? idx = some l)
    (f1 : String) (hf1 : (goSplit l ':').get? 1 = some f1) :
    (ensureNode host lines idx dev).1 ≠ Outcome.panics := by
  obtain ⟨a, t, hg⟩ : ∃ a t, goSplit l ':' = a :: t := by
    cases hg : goSplit l ':' with
    | nil => exact absurd hg (goSplit_ne_nil l ':')
    | cons a t => exact ⟨a, t, rfl⟩
  rw [hg] at hf1
  simp only [List.get?_cons_succ, List.get?_cons_zero] at hf1
  unfold ensureNode
  by_cases hp : host.pathExists dev = true
  · simp [hp]
  · have hp' : host.pathExists dev = false := by simpa using hp
    simp only [hp', Bool.false_eq_true, if_false, hline, hg,
      List.get?_cons_zero, List.get?_cons_succ]
    cases hA : atoi a with
    | error e => simp [hA]
    | ok major =>
      simp only [hA]
      rw [hf1]
      cases hB : atoi f1 with
      | error e => simp [hB]
      | ok minor => by_cases hm : host.mknodOk dev = true <;> simp [hB, hm]

/-- Claim C4 counterexample: on a host whose lsblk query output is the
single line `259:0` (fewer than three newline-separated lines), with the
partition device files missing, `mountImage` panics — Go indexes
`deviceNumbers[1]` out of range — instead of returning a
`DeviceNodeError`-class error. -/
theorem mountImage_panics_on_short_lsblk :
    (vm.mountImage shortLsblkHost vmDetached).1 = Outcome.panics := rfl

/-- Claim C4 amended: device-node reconciliation terminates with success or
an error — never a panic — for every lsblk query output that has at least
three newline-separated lines whose second and third lines each contain a
`":"` separator (in particular, non-numeric major/minor fields yield an
error); outputs outside that shape are indexed out of range instead. -/
theorem mountImage_no_panic_of_wellformed_lsblk (host : Host) (v : vm)
    (hwf : ∀ dev out, host.runOut (lsblkArgs dev) = Except.ok out → lsblkWellFormed out = true) :
    (vm.mountImage host v).1 ≠ Outcome.panics := by
  by_cases hl : v.loopDevice = ""
  · simp only [vm.mountImage, hl, ne_eq, not_true_eq_false, if_false]
    split
    · simp
    · rename_i stdout heqO
      split
      · simp
      · rename_i out heq
        have hwfo := hwf _ _ heq
        simp only [lsblkWellFormed] at hwfo
        split at hwfo
        · rename_i l1 l2 heq1 heq2
          split at hwfo
          · rename_i g1 g2 heq3 heq4
            split
            · rename_i u hu
              exact ensureNode_ne_panics host _ 2 _ l2 heq2 g2 heq4
            · intro hcon
              exact ensureNode_ne_panics host _ 1 _ l1 heq1 g1 heq3 hcon
          · exact absurd hwfo (by simp)
        · exact absurd hwfo (by simp)
  · simp [vm.mountImage, hl]

/-- Witness for the amended C4: the all-succeeding host reports three
well-formed lsblk lines, so mounting the detached vm cannot panic. -/
theorem mountImage_no_panic_of_wellformed_lsblk_witness :
    (vm.mountImage happyHost vmDetached).1 ≠ Outcome.panics :=
  mountImage_no_panic_of_wellformed_lsblk happyHost vmDetached (by
    intro dev out h
    simp only [happyHost, lsblkArgs, List.head?] at h
    injection h with h
    rw [← h]
    decide)

/-- Claim C5 counterexample: on a host where the loop bind succeeds
(assigning `/dev/loop7`) and the following block-device listing fails,
`mountImage` returns an error yet the vm's recorded loop device path is
`/dev/loop7`, not empty — the loop binding made by this step remains. -/
theorem mountImage_not_atomic_on_listing_failure :
    (vm.mountImage lsblkFailHost vmDetached).1 =
      Outcome.err ("Failed to list block devices: " ++ "device error") ∧
    ((vm.mountImage lsblkFailHost vmDetached).2.1).loopDevice = "/dev/loop7" ∧
    ((vm.mountImage lsblkFailHost vmDetached).2.1).loopDevice ≠ "" :=
  ⟨rfl, rfl, by decide⟩

/-- Claim C5 amended: `mountImage` on a detached vm leaves state unchanged
only when the loop bind step itself fails — then the vm is returned
untouched (empty recorded path) with the single failed `losetup` attempt in
the trace; once the bind has succeeded, the recorded loop device path is
set to the trimmed `losetup` output, and it (and the binding) persist even
when a later step of `mountImage` fails. -/
theorem mountImage_bind_step_atomicity (host : Host) (v : vm) (hl : v.loopDevice = "") :
    (∀ e, host.runOut (losetupArgs v.imageFile) = Except.error e →
      vm.mountImage host v =
        (Outcome.err ("Failed to setup loop device: " ++ e), v,
          [Effect.runOut (losetupArgs v.imageFile)])) ∧
    (∀ stdout, host.runOut (losetupArgs v.imageFile) = Except.ok stdout →
      ((vm.mountImage host v).2.1).loopDevice = goTrimSpace stdout) := by
  constructor
  · intro e he
    simp [vm.mountImage, hl, he]
  · intro stdout hs
    simp only [vm.mountImage, hl, ne_eq, not_true_eq_false, if_false, hs]
    repeat' split
    all_goals rfl

/-- Witness for the amended C5: with no loop device available the bind
fails and `mountImage` leaves the detached vm untouched. -/
theorem mountImage_bind_step_atomicity_witness :
    vm.mountImage losetupFailHost vmDetached =
      (Outcome.err ("Failed to setup loop device: " ++ "no loop device"), vmDetached,
        [Effect.runOut (losetupArgs vmDetached.imageFile)]) :=
  (mountImage_bind_step_atomicity losetupFailHost vmDetached rfl).1 "no loop device" rfl
